import Mathlib

/-!
Verification of the update-check workflow in `get-latest-version.py`.

The script is a single linear workflow: query the downstream (os-patches)
archive for the patched version, query the upstream archive pocket by pocket,
compare versions, and on a newer upstream version open an issue, download and
extract the source archive, and open a pull request.

We embed the script shallowly: every external call (archive query, tracker
call, subprocess, download, extraction) becomes an `Event`.  A run is
generated as a linear program (`Prog`) whose branches are resolved against an
environment `Env` holding the responses of the external collaborators, and is
then executed by `exec`, which stops at the first failing checked call
(`subprocess.run(..., check=True)`, network and tracker calls) and ignores
failures of unchecked calls (`subprocess.run(..., check=False)`).
-/

namespace OsPatches

/-- A published source record as returned by `getPublishedSources`. -/
structure SourceRecord where
  source_package_version : String
  source_package_name : String
deriving DecidableEq

/-- An open issue on the tracker: its title and its author's login. -/
structure Issue where
  title : String
  author : String
deriving DecidableEq

/-- A member of a tar archive: its path name and whether it is a directory. -/
structure TarMember where
  name : String
  isDir : Bool
deriving DecidableEq

/-- Python's `s.strip('/')`: drop leading and trailing `/` characters. -/
def pyStripSlashes (s : String) : String :=
  String.mk (((s.data.dropWhile (fun c => c == '/')).reverse.dropWhile
    (fun c => c == '/')).reverse)

/-- Python's `s.startswith(pre)` at character level. -/
def pyStartsWith (s pre : String) : Bool :=
  pre.data.isPrefixOf s.data

/-- Python's `c in s` membership test for a single character. -/
def pyContains (s : String) (c : Char) : Bool :=
  s.data.contains c

/-- Python's `len(s)` (character count). -/
def pyLen (s : String) : Nat :=
  s.data.length

/-- Python's `s[n:]` (drop the first `n` characters). -/
def pyDropChars (s : String) (n : Nat) : String :=
  String.mk (s.data.drop n)

/-- Transcribed from `github_issue_exists` (source lines 68-74): an open issue
with exactly this title, authored by `github-actions[bot]`, exists. -/
def github_issue_exists (open_issues : List Issue) (title : String) : Bool :=
  open_issues.any (fun i => i.title == title && i.author == "github-actions[bot]")

/-- The `top_level_dirs` computation inside `extract_archive` (line 86):
members that are directories and whose stripped name contains no `/`. -/
def top_level_dirs (members : List TarMember) : List TarMember :=
  members.filter (fun m => m.isDir && !(pyContains (pyStripSlashes m.name) '/'))

/-- Transcribed from `extract_archive` (source lines 82-99), as the list of
members placed at the destination.  With exactly one top-level directory,
members whose name starts with that directory's name are extracted with the
prefix stripped (and surrounding slashes removed); other members are skipped.
Otherwise `extractall` extracts every member verbatim. -/
def extract_archive (members : List TarMember) : List TarMember :=
  match top_level_dirs members with
  | [d] =>
    let top_level_dir_name := d.name
    members.filterMap (fun m =>
      if pyStartsWith m.name top_level_dir_name then
        some { m with name := pyStripSlashes (pyDropChars m.name (pyLen top_level_dir_name)) }
      else
        none)
  | _ => members

/-- One observable action of the workflow: an external call together with the
data it carries. -/
inductive Event where
  | gitConfigCmd (args : List String)
  | queryPatched
  | queryUpstream (pocket : String)
  | listOpenIssues
  | createIssue (title body : String) (number : Nat)
  | printLine (line : String)
  | httpGet (url : String)
  | downloadFile (url filename : String)
  | gitCmd (args : List String)
  | openArchive (path mode : String)
  | extracted (path dest : String) (members : List TarMember)
  | removeFile (path : String)
  | createPull (base head title body : String)
deriving DecidableEq

/-- Responses of all external collaborators, plus a failure oracle `fails`
saying which external calls raise an error when executed. -/
structure Env where
  component_name : String
  upstream_series_name : String
  patched_sources : List SourceRecord
  upstream_sources : String → List SourceRecord
  openIssues : List Issue
  nextIssueNumber : Nat
  web_link : String
  dscFirstFileName : String
  archiveFormat : String
  archiveMembers : List TarMember
  version_compare : String → String → Int
  fails : Event → Bool

/-- A run, linearized: every branch of the script is already resolved, so what
remains is the sequence of external calls, each either checked
(`check=True` subprocesses, network and tracker calls: an error aborts the
run) or unchecked (`check=False` subprocesses: an error is ignored). -/
inductive Prog where
  | done
  | callChecked (e : Event) (rest : Prog)
  | callUnchecked (e : Event) (rest : Prog)

/-- Result of a run: the calls actually performed, and whether the process
exited with status 0. -/
structure RunOut where
  trace : List Event
  exitOk : Bool
deriving DecidableEq

/-- Execute a linearized run: a checked call whose execution fails aborts the
run right there (nonzero exit); unchecked calls never abort. -/
def exec (fails : Event → Bool) : Prog → RunOut
  | .done => ⟨[], true⟩
  | .callUnchecked e rest =>
    let r := exec fails rest
    ⟨e :: r.trace, r.exitOk⟩
  | .callChecked e rest =>
    if fails e then ⟨[e], false⟩
    else
      let r := exec fails rest
      ⟨e :: r.trace, r.exitOk⟩

/-- All events of a linearized run (the trace of a failure-free execution). -/
def progEvents : Prog → List Event
  | .done => []
  | .callChecked e rest => e :: progEvents rest
  | .callUnchecked e rest => e :: progEvents rest

/-- The checked events of a linearized run. -/
def checkedEvents : Prog → List Event
  | .done => []
  | .callChecked e rest => e :: checkedEvents rest
  | .callUnchecked _ rest => checkedEvents rest

/-- The unchecked events of a linearized run. -/
def uncheckedEvents : Prog → List Event
  | .done => []
  | .callChecked _ rest => uncheckedEvents rest
  | .callUnchecked e rest => e :: uncheckedEvents rest

/-- Title of the "not found" issue (source line 123). -/
def notFoundTitle (env : Env) : String :=
  "Package " ++ env.component_name ++ " not found in os-patches PPA"

/-- Body of the "not found" issue (source line 127). -/
def notFoundBody (env : Env) : String :=
  env.component_name ++
    " found in the import list, but not in the PPA. Not deployed yet or removed by accident?"

/-- Status line printed after creating the "not found" issue (line 129). -/
def notFoundPrintLine (env : Env) (number : Nat) : String :=
  "Package " ++ env.component_name ++
    " not found in elementary os-patches! - Created issue " ++ toString number

/-- Title of the "new version available" issue (source line 140). -/
def newVersionTitle (env : Env) : String :=
  "📦 New version of " ++ env.component_name ++ " available [" ++
    env.upstream_series_name ++ "]"

/-- Body of the "new version available" issue (source lines 144-145). -/
def newVersionBody (env : Env) (pocket_version patched_version : String) : String :=
  "The package `" ++ env.component_name ++ "` in `" ++ env.upstream_series_name ++
    "` can be upgraded to version `" ++ pocket_version ++
    "`.\nPrevious version: `" ++ patched_version ++ "`."

/-- Status line printed after creating the new-version issue (lines 147-150). -/
def createdPrintLine (env : Env) (pocket_version patched_version : String)
    (number : Nat) : String :=
  "The patched package " ++ env.component_name ++ " has a new version " ++
    pocket_version ++ "(was version " ++ patched_version ++
    ") - Created issue " ++ toString number

/-- URL of the `.dsc` control file (source line 153). -/
def dscUrl (env : Env) (package_name pocket_version : String) : String :=
  env.web_link ++ "/+files/" ++ package_name ++ "_" ++ pocket_version ++ ".dsc"

/-- URL of the source archive (source line 162). -/
def packageUrl (env : Env) (pocket_version filename : String) : String :=
  "https://code.launchpad.net/ubuntu/+archive/primary/+sourcefiles/" ++
    env.component_name ++ "/" ++ pocket_version ++ "/" ++ filename

/-- Base branch name `<package>-<upstream-series>` (source line 166). -/
def baseBranch (env : Env) : String :=
  env.component_name ++ "-" ++ env.upstream_series_name

/-- New branch name `bot/update/<package>-<upstream-series>` (line 167). -/
def newBranch (env : Env) : String :=
  "bot/update/" ++ env.component_name ++ "-" ++ env.upstream_series_name

/-- Pull-request title (source line 183). -/
def prTitle (env : Env) : String :=
  "📦 Update " ++ env.component_name

/-- Pull-request body referencing the issue (source lines 184-185), including
the literal indentation inside the Python triple-quoted string. -/
def prBody (env : Env) (pocket_version patched_version : String)
    (number : Nat) : String :=
  "A new version of `" ++ env.component_name ++ " " ++ pocket_version ++
    "` replaces `" ++ patched_version ++ "`.\n                    Fixes #" ++
    toString number ++ "."

/-- Commit message `Update to <package> <version>` (source line 177). -/
def commitMsg (env : Env) (pocket_version : String) : String :=
  "Update to " ++ env.component_name ++ " " ++ pocket_version

/-- The linearized update block of one successful pocket iteration (source
lines 142-187), continuing with `rest`. -/
def updateProg (env : Env) (src : SourceRecord)
    (pocket_version patched_version : String) (number : Nat)
    (rest : Prog) : Prog :=
  .callChecked (.createIssue (newVersionTitle env)
      (newVersionBody env pocket_version patched_version) number)
  (.callChecked (.printLine (createdPrintLine env pocket_version patched_version number))
  (.callChecked (.httpGet (dscUrl env src.source_package_name pocket_version))
  (.callChecked (.printLine (packageUrl env pocket_version env.dscFirstFileName))
  (.callChecked (.downloadFile (packageUrl env pocket_version env.dscFirstFileName)
      env.dscFirstFileName)
  (.callChecked (.gitCmd ["git", "fetch", "--all"])
  (.callChecked (.gitCmd ["git", "switch", baseBranch env])
  (.callChecked (.gitCmd ["git", "checkout", "-b", newBranch env])
  (.callChecked (.openArchive env.dscFirstFileName "r:xz")
  (.callChecked (.extracted env.dscFirstFileName "./" (extract_archive env.archiveMembers))
  (.callChecked (.removeFile env.dscFirstFileName)
  (.callChecked (.gitCmd ["git", "add", "."])
  (.callChecked (.gitCmd ["git", "commit", "-m", commitMsg env pocket_version])
  (.callChecked (.gitCmd ["git", "push", "origin", newBranch env])
  (.callChecked (.createPull (baseBranch env) (newBranch env) (prTitle env)
      (prBody env pocket_version patched_version number))
  (.callChecked (.gitCmd ["git", "switch", "master"])
    rest)))))))))))))))

/-- The pocket loop (source lines 135-187): each pocket is queried in turn;
a pocket with at least one record whose first version exceeds the patched
version, with no matching open issue, triggers the update block.  The script
has no `break`: the loop always continues with the remaining pockets. -/
def pocketIter (env : Env) (patched_version : String) :
    List String → List Issue → Nat → Prog
  | [], _, _ => .done
  | pocket :: pockets, issues, nextNo =>
    .callChecked (.queryUpstream pocket)
      (match env.upstream_sources pocket with
       | [] => pocketIter env patched_version pockets issues nextNo
       | src :: _ =>
         let pocket_version := src.source_package_version
         if env.version_compare pocket_version patched_version > 0 then
           .callChecked .listOpenIssues
             (if github_issue_exists issues (newVersionTitle env) then
               pocketIter env patched_version pockets issues nextNo
             else
               updateProg env src pocket_version patched_version nextNo
                 (pocketIter env patched_version pockets
                   (issues ++ [⟨newVersionTitle env, "github-actions[bot]"⟩])
                   (nextNo + 1)))
         else
           pocketIter env patched_version pockets issues nextNo)

/-- The "package not found" terminal path (source lines 122-130). -/
def notFoundProg (env : Env) : Prog :=
  .callChecked .listOpenIssues
    (if github_issue_exists env.openIssues (notFoundTitle env) then
      .done
    else
      .callChecked (.createIssue (notFoundTitle env) (notFoundBody env) env.nextIssueNumber)
        (.callChecked (.printLine (notFoundPrintLine env env.nextIssueNumber)) .done))

/-- The three best-effort `git config` commands (source lines 63-65). -/
def cfgPrefixEvents : List Event :=
  [.gitConfigCmd ["git", "config", "--global", "user.email",
      "github-actions[bot]@users.noreply.github.com"],
   .gitConfigCmd ["git", "config", "--global", "user.name", "github-actions[bot]"],
   .gitConfigCmd ["git", "config", "--global", "--add", "safe.directory",
      "/__w/os-patches/os-patches"]]

/-- The whole run, linearized against the environment (source lines 63-187).
`get_patched_sources()` is called twice, at lines 122 and 132. -/
def progOf (env : Env) : Prog :=
  .callUnchecked (.gitConfigCmd ["git", "config", "--global", "user.email",
      "github-actions[bot]@users.noreply.github.com"])
  (.callUnchecked (.gitConfigCmd ["git", "config", "--global", "user.name",
      "github-actions[bot]"])
  (.callUnchecked (.gitConfigCmd ["git", "config", "--global", "--add",
      "safe.directory", "/__w/os-patches/os-patches"])
  (.callChecked .queryPatched
    (match env.patched_sources with
     | [] => notFoundProg env
     | src :: _ =>
       .callChecked .queryPatched
         (pocketIter env src.source_package_version
           ["Release", "Security", "Updates"] env.openIssues env.nextIssueNumber)))))

/-- `tarfile.open(file_path, 'r:xz')` (source line 83) raises on an archive
that is not an xz-compressed tarball; every other call fails exactly when the
failure oracle says so. -/
def effFails (env : Env) (e : Event) : Bool :=
  env.fails e ||
    match e with
    | .openArchive _ _ => env.archiveFormat != "xz"
    | _ => false

/-- One run of the script against an environment. -/
def run (env : Env) : RunOut :=
  exec (effFails env) (progOf env)

/-! ### Event classifiers -/

/-- Is this event one of the `check=False` `git config` setup commands? -/
def isGitConfig : Event → Bool
  | .gitConfigCmd _ => true
  | _ => false

def isQueryUpstream : Event → Bool
  | .queryUpstream _ => true
  | _ => false

def isCreateIssue : Event → Bool
  | .createIssue _ _ _ => true
  | _ => false

def isCreatePull : Event → Bool
  | .createPull _ _ _ _ => true
  | _ => false

def isListOpenIssues : Event → Bool
  | .listOpenIssues => true
  | _ => false

def isDownloadFile : Event → Bool
  | .downloadFile _ _ => true
  | _ => false

def isOpenArchive : Event → Bool
  | .openArchive _ _ => true
  | _ => false

def isRemoveFile : Event → Bool
  | .removeFile _ => true
  | _ => false

def isPrintLine : Event → Bool
  | .printLine _ => true
  | _ => false

def isGitCmd : Event → Bool
  | .gitCmd _ => true
  | _ => false

def isHttpGet : Event → Bool
  | .httpGet _ => true
  | _ => false

/-- The issues the run created, as tracker state (authored by the
automation identity `github-actions[bot]`). -/
def createdIssues : List Event → List Issue
  | [] => []
  | .createIssue t _ _ :: rest => ⟨t, "github-actions[bot]"⟩ :: createdIssues rest
  | _ :: rest => createdIssues rest

/-! ### Generic facts about `exec` -/

theorem exec_noFail (fails : Event → Bool) (p : Prog)
    (h : ∀ e ∈ checkedEvents p, fails e = false) :
    exec fails p = ⟨progEvents p, true⟩ := by
  induction p with
  | done => rfl
  | callChecked e rest ih =>
    have he : fails e = false := h e (by simp [checkedEvents])
    simp only [exec, he, Bool.false_eq_true, if_false, progEvents]
    rw [ih (fun e' he' => h e' (by simp [checkedEvents, he']))]
  | callUnchecked e rest ih =>
    simp only [exec, progEvents]
    rw [ih (fun e' he' => h e' (by simp [checkedEvents, he']))]

theorem exec_fail_last (fails : Event → Bool) (p : Prog)
    (h : (exec fails p).exitOk = false) :
    ∃ l e, (exec fails p).trace = l ++ [e] ∧ fails e = true ∧
      e ∈ checkedEvents p := by
  induction p with
  | done => simp [exec] at h
  | callChecked e rest ih =>
    by_cases hf : fails e = true
    · exact ⟨[], e, by simp [exec, hf], hf, by simp [checkedEvents]⟩
    · simp only [Bool.not_eq_true] at hf
      simp only [exec, hf, Bool.false_eq_true, if_false] at h ⊢
      obtain ⟨l, e', hl, hf', hm⟩ := ih h
      exact ⟨e :: l, e', by simp [hl], hf', by simp [checkedEvents, hm]⟩
  | callUnchecked e rest ih =>
    simp only [exec] at h ⊢
    obtain ⟨l, e', hl, hf', hm⟩ := ih h
    exact ⟨e :: l, e', by simp [hl], hf', by simp [checkedEvents, hm]⟩

theorem exec_ok_all (fails : Event → Bool) (p : Prog)
    (h : (exec fails p).exitOk = true) :
    ∀ e ∈ (exec fails p).trace, fails e = false ∨ e ∈ uncheckedEvents p := by
  induction p with
  | done => simp [exec]
  | callChecked e rest ih =>
    by_cases hf : fails e = true
    · simp [exec, hf] at h
    · simp only [Bool.not_eq_true] at hf
      simp only [exec, hf, Bool.false_eq_true, if_false] at h ⊢
      intro e' he'
      rcases List.mem_cons.mp he' with rfl | hmem
      · exact Or.inl hf
      · rcases ih h e' hmem with h' | h'
        · exact Or.inl h'
        · exact Or.inr (by simp [uncheckedEvents, h'])
  | callUnchecked e rest ih =>
    simp only [exec] at h ⊢
    intro e' he'
    rcases List.mem_cons.mp he' with rfl | hmem
    · exact Or.inr (by simp [uncheckedEvents])
    · rcases ih h e' hmem with h' | h'
      · exact Or.inl h'
      · exact Or.inr (by simp [uncheckedEvents, h'])

/-- The trace of an execution is a prefix of the full event list. -/
theorem exec_trace_prefix (fails : Event → Bool) (p : Prog) :
    (exec fails p).trace <+: progEvents p := by
  induction p with
  | done => simp [exec, progEvents]
  | callChecked e rest ih =>
    by_cases hf : fails e = true
    · simp [exec, hf, progEvents]
    · simp only [Bool.not_eq_true] at hf
      simp only [exec, hf, Bool.false_eq_true, if_false, progEvents]
      exact List.prefix_cons_inj e |>.mpr ih
  | callUnchecked e rest ih =>
    simp only [exec, progEvents]
    exact List.prefix_cons_inj e |>.mpr ih

/-! ### Checked vs unchecked calls

In the script every `subprocess.run` with `check=False` is one of the three
`git config` commands, and every other external call propagates errors. -/

/-- Every checked call is a non-config command and every unchecked call is
one of the `git config` commands. -/
def wellTagged : Prog → Bool
  | .done => true
  | .callChecked e rest => !isGitConfig e && wellTagged rest
  | .callUnchecked e rest => isGitConfig e && wellTagged rest

theorem wellTagged_checked (p : Prog) (h : wellTagged p = true) :
    ∀ e ∈ checkedEvents p, isGitConfig e = false := by
  induction p with
  | done => simp [checkedEvents]
  | callChecked e rest ih =>
    simp only [wellTagged, Bool.and_eq_true, Bool.not_eq_true'] at h
    intro e' he'
    rcases List.mem_cons.mp he' with rfl | hm
    · exact h.1
    · exact ih h.2 e' hm
  | callUnchecked e rest ih =>
    simp only [wellTagged, Bool.and_eq_true] at h
    exact ih h.2

theorem wellTagged_unchecked (p : Prog) (h : wellTagged p = true) :
    ∀ e ∈ uncheckedEvents p, isGitConfig e = true := by
  induction p with
  | done => simp [uncheckedEvents]
  | callChecked e rest ih =>
    simp only [wellTagged, Bool.and_eq_true] at h
    exact ih h.2
  | callUnchecked e rest ih =>
    simp only [wellTagged, Bool.and_eq_true] at h
    intro e' he'
    rcases List.mem_cons.mp he' with rfl | hm
    · exact h.1
    · exact ih h.2 e' hm

theorem wellTagged_updateProg (env : Env) (src : SourceRecord)
    (pocket_version patched_version : String) (n : Nat) (rest : Prog)
    (h : wellTagged rest = true) :
    wellTagged (updateProg env src pocket_version patched_version n rest) = true := by
  simp [updateProg, wellTagged, isGitConfig, h]

theorem wellTagged_pocketIter (env : Env) (pv : String) :
    ∀ (ps : List String) (issues : List Issue) (n : Nat),
      wellTagged (pocketIter env pv ps issues n) = true := by
  intro ps
  induction ps with
  | nil => intro issues n; rfl
  | cons pocket pockets ih =>
    intro issues n
    simp only [pocketIter]
    cases h : env.upstream_sources pocket with
    | nil => simp [wellTagged, isGitConfig, ih]
    | cons src tl =>
      simp only []
      split
      · simp only [wellTagged, isGitConfig, Bool.not_false, Bool.true_and]
        split
        · exact ih issues n
        · exact wellTagged_updateProg env src _ pv n _ (ih _ _)
      · simp [wellTagged, isGitConfig, ih]

theorem wellTagged_notFoundProg (env : Env) :
    wellTagged (notFoundProg env) = true := by
  simp only [notFoundProg]
  split <;> simp [wellTagged, isGitConfig]

theorem wellTagged_progOf (env : Env) : wellTagged (progOf env) = true := by
  simp only [progOf, wellTagged, isGitConfig, Bool.not_false, Bool.true_and]
  cases env.patched_sources with
  | nil => exact wellTagged_notFoundProg env
  | cons src tl =>
    show wellTagged (.callChecked .queryPatched
      (pocketIter env src.source_package_version ["Release", "Security", "Updates"]
        env.openIssues env.nextIssueNumber)) = true
    simp only [wellTagged, isGitConfig, Bool.not_false, Bool.true_and]
    exact wellTagged_pocketIter env src.source_package_version
      ["Release", "Security", "Updates"] env.openIssues env.nextIssueNumber

/-! ### The issue-deduplication discipline

`dedupWalk` replays a trace against the tracker state: it demands that every
`createIssue` is immediately preceded by a `listOpenIssues` call and that no
open issue with the same title authored by `github-actions[bot]` exists at
that point (counting the issues the run itself has created so far). -/

def dedupStepOK (issues : List Issue) (prevList : Bool) : Event → Bool
  | .createIssue t _ _ => prevList && !github_issue_exists issues t
  | _ => true

def dedupUpd (issues : List Issue) : Event → List Issue
  | .createIssue t _ _ => issues ++ [⟨t, "github-actions[bot]"⟩]
  | _ => issues

def dedupWalk (issues : List Issue) (prevList : Bool) : List Event → Bool
  | [] => true
  | e :: rest =>
    dedupStepOK issues prevList e && dedupWalk (dedupUpd issues e) (isListOpenIssues e) rest

/-- The same discipline, stated over a linearized run. -/
def ProgDedup (issues : List Issue) (prevList : Bool) : Prog → Bool
  | .done => true
  | .callChecked e rest =>
    dedupStepOK issues prevList e && ProgDedup (dedupUpd issues e) (isListOpenIssues e) rest
  | .callUnchecked e rest =>
    dedupStepOK issues prevList e && ProgDedup (dedupUpd issues e) (isListOpenIssues e) rest

theorem ProgDedup_exec (fails : Event → Bool) :
    ∀ (p : Prog) (issues : List Issue) (prev : Bool),
      ProgDedup issues prev p = true →
      dedupWalk issues prev (exec fails p).trace = true := by
  intro p
  induction p with
  | done => intro issues prev _; rfl
  | callChecked e rest ih =>
    intro issues prev h
    simp only [ProgDedup, Bool.and_eq_true] at h
    by_cases hf : fails e = true
    · simp [exec, hf, dedupWalk, h.1]
    · simp only [Bool.not_eq_true] at hf
      simp only [exec, hf, Bool.false_eq_true, if_false]
      simp [dedupWalk, h.1, ih _ _ h.2]
  | callUnchecked e rest ih =>
    intro issues prev h
    simp only [ProgDedup, Bool.and_eq_true] at h
    simp only [exec]
    simp [dedupWalk, h.1, ih _ _ h.2]

theorem ProgDedup_updateProg (env : Env) (src : SourceRecord)
    (pocket_version patched_version : String) (n : Nat) (rest : Prog)
    (issues : List Issue)
    (h1 : github_issue_exists issues (newVersionTitle env) = false)
    (h2 : ProgDedup (issues ++ [⟨newVersionTitle env, "github-actions[bot]"⟩])
        false rest = true) :
    ProgDedup issues true
      (updateProg env src pocket_version patched_version n rest) = true := by
  simp [updateProg, ProgDedup, dedupStepOK, dedupUpd, isListOpenIssues, h1, h2]

theorem ProgDedup_pocketIter (env : Env) (pv : String) :
    ∀ (ps : List String) (issues : List Issue) (n : Nat) (prev : Bool),
      ProgDedup issues prev (pocketIter env pv ps issues n) = true := by
  intro ps
  induction ps with
  | nil => intro issues n prev; rfl
  | cons pocket pockets ih =>
    intro issues n prev
    simp only [pocketIter]
    cases h : env.upstream_sources pocket with
    | nil => simp [ProgDedup, dedupStepOK, dedupUpd, isListOpenIssues, ih]
    | cons src tl =>
      simp only []
      split
      · simp only [ProgDedup, dedupStepOK, dedupUpd, isListOpenIssues, Bool.true_and]
        split
        · exact ih issues n true
        · next hex =>
          exact ProgDedup_updateProg env src _ pv n _ issues
            (Bool.not_eq_true _ ▸ (by simpa using hex)) (ih _ _ false)
      · simp [ProgDedup, dedupStepOK, dedupUpd, isListOpenIssues, ih]

theorem ProgDedup_notFoundProg (env : Env) (prev : Bool) :
    ProgDedup env.openIssues prev (notFoundProg env) = true := by
  simp only [notFoundProg]
  split
  · simp [ProgDedup, dedupStepOK, dedupUpd, isListOpenIssues]
  · next hex =>
    simp [ProgDedup, dedupStepOK, dedupUpd, isListOpenIssues,
      Bool.not_eq_true _ ▸ (by simpa using hex : ¬github_issue_exists env.openIssues (notFoundTitle env) = true)]

theorem ProgDedup_progOf (env : Env) :
    ProgDedup env.openIssues false (progOf env) = true := by
  simp only [progOf, ProgDedup, dedupStepOK, dedupUpd, isListOpenIssues, Bool.true_and]
  cases env.patched_sources with
  | nil => exact ProgDedup_notFoundProg env false
  | cons src tl =>
    show ProgDedup env.openIssues false (.callChecked .queryPatched
      (pocketIter env src.source_package_version ["Release", "Security", "Updates"]
        env.openIssues env.nextIssueNumber)) = true
    simp only [ProgDedup, dedupStepOK, dedupUpd, isListOpenIssues, Bool.true_and]
    exact ProgDedup_pocketIter env src.source_package_version
      ["Release", "Security", "Updates"] env.openIssues env.nextIssueNumber false

/-! ### Characterizing the pocket loop -/

/-- Does this pocket trigger the update path: it has at least one published
record and its first record's version strictly exceeds the patched version
under the version comparator (source lines 137-139)? -/
def goodPocket (env : Env) (patched_version : String) (pocket : String) : Bool :=
  match env.upstream_sources pocket with
  | [] => false
  | src :: _ =>
    if env.version_compare src.source_package_version patched_version > 0 then true
    else false

/-- The events between issue creation and the git sequence (lines 142-164). -/
def preSeq (env : Env) (src : SourceRecord)
    (pocket_version patched_version : String) (n : Nat) : List Event :=
  [.createIssue (newVersionTitle env)
      (newVersionBody env pocket_version patched_version) n,
   .printLine (createdPrintLine env pocket_version patched_version n),
   .httpGet (dscUrl env src.source_package_name pocket_version),
   .printLine (packageUrl env pocket_version env.dscFirstFileName),
   .downloadFile (packageUrl env pocket_version env.dscFirstFileName) env.dscFirstFileName]

/-- The version-control tail of the update path (source lines 169-187):
fetch, switch to base, create the bot branch, extract and delete the archive,
stage, commit, push, open the pull request, switch back to master. -/
def updateSeq (env : Env) (pocket_version patched_version : String)
    (n : Nat) : List Event :=
  [.gitCmd ["git", "fetch", "--all"],
   .gitCmd ["git", "switch", baseBranch env],
   .gitCmd ["git", "checkout", "-b", newBranch env],
   .openArchive env.dscFirstFileName "r:xz",
   .extracted env.dscFirstFileName "./" (extract_archive env.archiveMembers),
   .removeFile env.dscFirstFileName,
   .gitCmd ["git", "add", "."],
   .gitCmd ["git", "commit", "-m", commitMsg env pocket_version],
   .gitCmd ["git", "push", "origin", newBranch env],
   .createPull (baseBranch env) (newBranch env) (prTitle env)
      (prBody env pocket_version patched_version n),
   .gitCmd ["git", "switch", "master"]]

theorem progEvents_updateProg (env : Env) (src : SourceRecord)
    (pocket_version patched_version : String) (n : Nat) (rest : Prog) :
    progEvents (updateProg env src pocket_version patched_version n rest)
      = preSeq env src pocket_version patched_version n
        ++ updateSeq env pocket_version patched_version n
        ++ progEvents rest := by
  simp [updateProg, progEvents, preSeq, updateSeq]

/-- In a failure-free run the loop queries every pocket, in order. -/
theorem filter_queryUpstream_pocketIter (env : Env) (pv : String) :
    ∀ (ps : List String) (issues : List Issue) (n : Nat),
      (progEvents (pocketIter env pv ps issues n)).filter isQueryUpstream
        = ps.map Event.queryUpstream := by
  intro ps
  induction ps with
  | nil => intro issues n; rfl
  | cons pocket pockets ih =>
    intro issues n
    simp only [pocketIter]
    cases h : env.upstream_sources pocket with
    | nil => simp [progEvents, isQueryUpstream, ih]
    | cons src tl =>
      simp only []
      split
      · split
        · simp [progEvents, isQueryUpstream, ih]
        · simp [progEvents_updateProg, progEvents, preSeq, updateSeq, isQueryUpstream, ih]
      · simp [progEvents, isQueryUpstream, ih]

/-- An issue (and a pull request) comes out of the loop exactly when some
pocket is good and no open issue with the new-version title existed. -/
theorem any_create_pocketIter (env : Env) (pv : String) :
    ∀ (ps : List String) (issues : List Issue) (n : Nat),
      ((progEvents (pocketIter env pv ps issues n)).any isCreateIssue
        = (!github_issue_exists issues (newVersionTitle env)
            && ps.any (goodPocket env pv)))
      ∧ ((progEvents (pocketIter env pv ps issues n)).any isCreatePull
        = (!github_issue_exists issues (newVersionTitle env)
            && ps.any (goodPocket env pv))) := by
  intro ps
  induction ps with
  | nil => intro issues n; simp [pocketIter, progEvents]
  | cons pocket pockets ih =>
    intro issues n
    simp only [pocketIter]
    cases h : env.upstream_sources pocket with
    | nil =>
      have hg : goodPocket env pv pocket = false := by simp [goodPocket, h]
      simp [progEvents, isCreateIssue, isCreatePull, hg, (ih issues n).1, (ih issues n).2]
    | cons src tl =>
      simp only []
      split
      · next hcmp =>
        have hg : goodPocket env pv pocket = true := by simp [goodPocket, h, hcmp]
        split
        · next hex =>
          have hex' : github_issue_exists issues (newVersionTitle env) = true := by
            simpa using hex
          simp [progEvents, isCreateIssue, isCreatePull, hex',
            (ih issues n).1, (ih issues n).2]
        · next hex =>
          have hex' : github_issue_exists issues (newVersionTitle env) = false := by
            simpa using hex
          simp [progEvents_updateProg, progEvents, preSeq, updateSeq,
            isCreateIssue, isCreatePull, hex', hg]
      · next hcmp =>
        have hg : goodPocket env pv pocket = false := by simp [goodPocket, h, hcmp]
        simp [progEvents, isCreateIssue, isCreatePull, hg, (ih issues n).1, (ih issues n).2]

/-- A freshly created issue with title `t` makes the dedup check succeed. -/
theorem github_issue_exists_append_self (issues : List Issue) (t : String) :
    github_issue_exists (issues ++ [⟨t, "github-actions[bot]"⟩]) t = true := by
  simp [github_issue_exists]

/-- The tracker state the loop adds: exactly one bot-authored issue with the
new-version title when some pocket is good and no such issue was open. -/
theorem createdIssues_pocketIter (env : Env) (pv : String) :
    ∀ (ps : List String) (issues : List Issue) (n : Nat),
      createdIssues (progEvents (pocketIter env pv ps issues n))
        = if !github_issue_exists issues (newVersionTitle env)
              && ps.any (goodPocket env pv)
          then [⟨newVersionTitle env, "github-actions[bot]"⟩] else [] := by
  intro ps
  induction ps with
  | nil => intro issues n; simp [pocketIter, progEvents, createdIssues]
  | cons pocket pockets ih =>
    intro issues n
    simp only [pocketIter]
    cases h : env.upstream_sources pocket with
    | nil =>
      have hg : goodPocket env pv pocket = false := by simp [goodPocket, h]
      simp only [progEvents, createdIssues]
      rw [ih issues n]
      simp only [List.any_cons, hg, Bool.false_or]
    | cons src tl =>
      simp only []
      split
      · next hcmp =>
        have hg : goodPocket env pv pocket = true := by simp [goodPocket, h, hcmp]
        split
        · next hex =>
          have hex' : github_issue_exists issues (newVersionTitle env) = true := by
            simpa using hex
          simp only [progEvents, createdIssues]
          rw [ih issues n]
          simp [hex']
        · next hex =>
          have hex' : github_issue_exists issues (newVersionTitle env) = false := by
            simpa using hex
          simp only [progEvents, progEvents_updateProg, preSeq, updateSeq,
            List.cons_append, List.nil_append, createdIssues]
          rw [ih _ (n + 1)]
          simp [github_issue_exists_append_self, hex', hg]
      · next hcmp =>
        have hg : goodPocket env pv pocket = false := by simp [goodPocket, h, hcmp]
        simp only [progEvents, createdIssues]
        rw [ih issues n]
        simp only [List.any_cons, hg, Bool.false_or]

/-! ### Failure-free runs -/

theorem effFails_false (env : Env) (hnf : ∀ e, env.fails e = false)
    (hxz : env.archiveFormat = "xz") : ∀ e, effFails env e = false := by
  intro e
  cases e <;> simp [effFails, hnf, hxz]

/-- With no collaborator failure and an xz archive, the run executes every
event of its linearization and exits 0. -/
theorem run_noFail_xz (env : Env) (hnf : ∀ e, env.fails e = false)
    (hxz : env.archiveFormat = "xz") :
    run env = ⟨progEvents (progOf env), true⟩ :=
  exec_noFail _ _ (fun e _ => effFails_false env hnf hxz e)

theorem progEvents_progOf_nil (env : Env) (hp : env.patched_sources = []) :
    progEvents (progOf env)
      = cfgPrefixEvents ++ [.queryPatched, .listOpenIssues]
        ++ (if github_issue_exists env.openIssues (notFoundTitle env) then []
            else [.createIssue (notFoundTitle env) (notFoundBody env) env.nextIssueNumber,
                  .printLine (notFoundPrintLine env env.nextIssueNumber)]) := by
  simp only [progOf, hp, notFoundProg, cfgPrefixEvents]
  split <;> simp [progEvents]

theorem checkedEvents_progOf_nil (env : Env) (hp : env.patched_sources = []) :
    checkedEvents (progOf env)
      = [.queryPatched, .listOpenIssues]
        ++ (if github_issue_exists env.openIssues (notFoundTitle env) then []
            else [.createIssue (notFoundTitle env) (notFoundBody env) env.nextIssueNumber,
                  .printLine (notFoundPrintLine env env.nextIssueNumber)]) := by
  simp only [progOf, hp, notFoundProg]
  split <;> simp [checkedEvents]

theorem progEvents_progOf_cons (env : Env) (src : SourceRecord)
    (tl : List SourceRecord) (hp : env.patched_sources = src :: tl) :
    progEvents (progOf env)
      = cfgPrefixEvents ++ [.queryPatched, .queryPatched]
        ++ progEvents (pocketIter env src.source_package_version
            ["Release", "Security", "Updates"] env.openIssues env.nextIssueNumber) := by
  simp [progOf, hp, progEvents, cfgPrefixEvents]

/-- C3 (confirmed): every `createIssue` in any run's trace is immediately
preceded by a `listOpenIssues` call, and happens only when no open issue with
exactly the same title authored by `github-actions[bot]` exists at that point
(counting the issues the run itself created, so no identical-title issue is
created twice while one is open).  This holds for every environment, even
when collaborators fail mid-run. -/
theorem C3_issue_dedup_invariant (env : Env) :
    dedupWalk env.openIssues false (run env).trace = true :=
  ProgDedup_exec (effFails env) (progOf env) env.openIssues false (ProgDedup_progOf env)

/-- C4 (confirmed): with zero published records in the os-patches PPA, the
run lists open issues, creates the `Package <name> not found in os-patches
PPA` issue only if no matching open issue exists, and exits with status 0;
its trace contains no upstream query, no download, no git command, no HTTP
fetch and no pull request. -/
theorem C4_not_found_terminal (env : Env)
    (hnf : ∀ e, env.fails e = false) (hp : env.patched_sources = []) :
    (run env).exitOk = true
    ∧ (run env).trace
        = cfgPrefixEvents ++ [.queryPatched, .listOpenIssues]
          ++ (if github_issue_exists env.openIssues (notFoundTitle env) then []
              else [.createIssue (notFoundTitle env) (notFoundBody env) env.nextIssueNumber,
                    .printLine (notFoundPrintLine env env.nextIssueNumber)])
    ∧ (run env).trace.any isQueryUpstream = false
    ∧ (run env).trace.any isCreatePull = false
    ∧ (run env).trace.any isDownloadFile = false
    ∧ (run env).trace.any isGitCmd = false
    ∧ (run env).trace.any isHttpGet = false
    ∧ (run env).trace.any isCreateIssue
        = !github_issue_exists env.openIssues (notFoundTitle env) := by
  have hck : ∀ e ∈ checkedEvents (progOf env), effFails env e = false := by
    intro e he
    rw [checkedEvents_progOf_nil env hp] at he
    rcases List.mem_append.mp he with hm | hm
    · rcases List.mem_cons.mp hm with rfl | hm
      · simp [effFails, hnf]
      · rcases List.mem_cons.mp hm with rfl | hm
        · simp [effFails, hnf]
        · simp at hm
    · by_cases hex : github_issue_exists env.openIssues (notFoundTitle env) = true
      · rw [if_pos hex] at hm; simp at hm
      · rw [if_neg hex] at hm
        rcases List.mem_cons.mp hm with rfl | hm
        · simp [effFails, hnf]
        · rcases List.mem_cons.mp hm with rfl | hm
          · simp [effFails, hnf]
          · simp at hm
  have hrun : run env = ⟨progEvents (progOf env), true⟩ := exec_noFail _ _ hck
  rw [hrun, progEvents_progOf_nil env hp]
  refine ⟨rfl, rfl, ?_, ?_, ?_, ?_, ?_, ?_⟩ <;>
    · by_cases hex : github_issue_exists env.openIssues (notFoundTitle env) = true <;>
        simp [hex, cfgPrefixEvents, isQueryUpstream, isCreatePull, isDownloadFile,
          isGitCmd, isHttpGet, isCreateIssue]

/-- Under empty upstream pockets, the loop just queries each pocket. -/
theorem pocketIter_all_empty (env : Env) (pv : String)
    (hup : ∀ p, env.upstream_sources p = []) :
    ∀ (ps : List String) (issues : List Issue) (n : Nat),
      pocketIter env pv ps issues n
        = ps.foldr (fun p rest => .callChecked (.queryUpstream p) rest) .done := by
  intro ps
  induction ps with
  | nil => intro issues n; rfl
  | cons pocket pockets ih =>
    intro issues n
    simp only [pocketIter, hup pocket, List.foldr_cons, ih issues n]

/-- C8 (confirmed): when the run reaches the pocket loop and all three
pockets yield zero results, the run performs exactly the three setup
commands, the two downstream queries and the three upstream queries — no
issue, no pull request, no download, no print, no git command beyond setup —
and exits with status 0. -/
theorem C8_all_pockets_empty (env : Env)
    (hnf : ∀ e, env.fails e = false)
    (hup : ∀ p, env.upstream_sources p = [])
    (hp : env.patched_sources ≠ []) :
    (run env).exitOk = true
    ∧ (run env).trace
        = cfgPrefixEvents ++ [.queryPatched, .queryPatched,
            .queryUpstream "Release", .queryUpstream "Security",
            .queryUpstream "Updates"] := by
  cases hps : env.patched_sources with
  | nil => exact absurd hps hp
  | cons src tl =>
    have hloop := pocketIter_all_empty env src.source_package_version hup
      ["Release", "Security", "Updates"] env.openIssues env.nextIssueNumber
    have hck : ∀ e ∈ checkedEvents (progOf env), effFails env e = false := by
      intro e he
      simp only [progOf, hps, hloop, checkedEvents, List.foldr, List.mem_cons,
        List.not_mem_nil, or_false] at he
      rcases he with rfl | rfl | rfl | rfl | rfl <;> simp [effFails, hnf]
    have hrun : run env = ⟨progEvents (progOf env), true⟩ := exec_noFail _ _ hck
    rw [hrun]
    refine ⟨rfl, ?_⟩
    simp [progOf, hps, hloop, progEvents, cfgPrefixEvents]

theorem createdIssues_append (l1 l2 : List Event) :
    createdIssues (l1 ++ l2) = createdIssues l1 ++ createdIssues l2 := by
  induction l1 with
  | nil => rfl
  | cons e tl ih => cases e <;> simp [createdIssues, ih]

theorem github_issue_exists_singleton (t : String) :
    github_issue_exists [⟨t, "github-actions[bot]"⟩] t = true := by
  simp [github_issue_exists]

theorem github_issue_exists_append (l1 l2 : List Issue) (t : String) :
    github_issue_exists (l1 ++ l2) t
      = (github_issue_exists l1 t || github_issue_exists l2 t) := by
  simp [github_issue_exists, List.any_append]

/-- Issue/pull-request creation in a run that ends on the not-found path. -/
theorem any_create_nil_helper (env : Env) (hp : env.patched_sources = []) :
    ((progEvents (progOf env)).any isCreateIssue
      = !github_issue_exists env.openIssues (notFoundTitle env))
    ∧ (progEvents (progOf env)).any isCreatePull = false := by
  rw [progEvents_progOf_nil env hp]
  by_cases hex : github_issue_exists env.openIssues (notFoundTitle env) = true <;>
    simp [hex, cfgPrefixEvents, isCreateIssue, isCreatePull]

/-- Issue/pull-request creation in a run that reaches the pocket loop. -/
theorem any_create_cons_helper (env : Env) (src : SourceRecord)
    (tl : List SourceRecord) (hp : env.patched_sources = src :: tl) :
    ((progEvents (progOf env)).any isCreateIssue
      = (!github_issue_exists env.openIssues (newVersionTitle env)
          && ["Release", "Security", "Updates"].any
              (goodPocket env src.source_package_version)))
    ∧ ((progEvents (progOf env)).any isCreatePull
      = (!github_issue_exists env.openIssues (newVersionTitle env)
          && ["Release", "Security", "Updates"].any
              (goodPocket env src.source_package_version))) := by
  rw [progEvents_progOf_cons env src tl hp]
  have h := any_create_pocketIter env src.source_package_version
    ["Release", "Security", "Updates"] env.openIssues env.nextIssueNumber
  simp [cfgPrefixEvents, isCreateIssue, isCreatePull, List.any_append, h.1, h.2]

theorem createdIssues_progOf_nil (env : Env) (hp : env.patched_sources = []) :
    createdIssues (progEvents (progOf env))
      = if github_issue_exists env.openIssues (notFoundTitle env) then []
        else [⟨notFoundTitle env, "github-actions[bot]"⟩] := by
  rw [progEvents_progOf_nil env hp]
  by_cases hex : github_issue_exists env.openIssues (notFoundTitle env) = true <;>
    simp [hex, cfgPrefixEvents, createdIssues, createdIssues_append]

theorem createdIssues_progOf_cons (env : Env) (src : SourceRecord)
    (tl : List SourceRecord) (hp : env.patched_sources = src :: tl) :
    createdIssues (progEvents (progOf env))
      = if !github_issue_exists env.openIssues (newVersionTitle env)
            && ["Release", "Security", "Updates"].any
                (goodPocket env src.source_package_version)
        then [⟨newVersionTitle env, "github-actions[bot]"⟩] else [] := by
  rw [progEvents_progOf_cons env src tl hp, createdIssues_append,
    createdIssues_append,
    createdIssues_pocketIter env src.source_package_version
      ["Release", "Security", "Updates"] env.openIssues env.nextIssueNumber]
  simp [cfgPrefixEvents, createdIssues]

/-- C1, amended (corrected): the pockets Release, Security, Updates are
tried in that fixed order, but a pocket yielding a result does not terminate
the loop — there is no `break` — so in every failure-free run reaching the
loop all three pockets are queried, in that order, even when Release yields
a result. -/
theorem C1_all_pockets_queried (env : Env) (src : SourceRecord)
    (tl : List SourceRecord)
    (hnf : ∀ e, env.fails e = false) (hxz : env.archiveFormat = "xz")
    (hp : env.patched_sources = src :: tl) :
    (run env).trace.filter isQueryUpstream
      = [.queryUpstream "Release", .queryUpstream "Security",
         .queryUpstream "Updates"] := by
  rw [run_noFail_xz env hnf hxz]
  show (progEvents (progOf env)).filter isQueryUpstream = _
  rw [progEvents_progOf_cons env src tl hp]
  simp [cfgPrefixEvents, isQueryUpstream, List.filter_append,
    filter_queryUpstream_pocketIter env src.source_package_version
      ["Release", "Security", "Updates"] env.openIssues env.nextIssueNumber]

/-- Environment refuting C1 as stated: Release yields a (non-newer) record,
yet Security is still queried, and Security's newer record drives an
update. -/
def envC1 : Env where
  component_name := "foo"
  upstream_series_name := "noble"
  patched_sources := [⟨"1.0", "foo"⟩]
  upstream_sources := fun p =>
    if p == "Release" then [⟨"1.0", "foo"⟩]
    else if p == "Security" then [⟨"2.0", "foo"⟩]
    else []
  openIssues := []
  nextIssueNumber := 7
  web_link := "https://launchpad.net/ubuntu/+archive/primary"
  dscFirstFileName := "foo_2.0.tar.xz"
  archiveFormat := "xz"
  archiveMembers := [⟨"foo-2.0", true⟩, ⟨"foo-2.0/README", false⟩]
  version_compare := fun u p => if u == "2.0" && p == "1.0" then 1 else 0
  fails := fun _ => false

/-- C1 counterexample: the Release pocket yields a result, yet the Security
pocket is queried afterwards and its record is used (a pull request is
opened), refuting "given a result for Release, the Security and Updates
pockets are never queried". -/
theorem C1_counterexample :
    envC1.upstream_sources "Release" ≠ []
    ∧ Event.queryUpstream "Security" ∈ (run envC1).trace
    ∧ (run envC1).trace.any isCreatePull = true := by
  refine ⟨by decide, by decide, by decide⟩

/-- C1 witness: the amended statement evaluated on `envC1`. -/
theorem C1_all_pockets_queried_witness :
    (run envC1).trace.filter isQueryUpstream
      = [.queryUpstream "Release", .queryUpstream "Security",
         .queryUpstream "Updates"] :=
  C1_all_pockets_queried envC1 ⟨"1.0", "foo"⟩ [] (fun _ => rfl) rfl rfl

/-- C2, amended (corrected): a new-version issue, and likewise a change
request, is created exactly when some pocket's first record strictly exceeds
the patched version under the version comparator AND no open issue with the
new-version title authored by the automation already exists.  In particular
when no pocket exceeds the patched version, neither is created. -/
theorem C2_create_iff_newer_and_no_issue (env : Env) (src : SourceRecord)
    (tl : List SourceRecord)
    (hnf : ∀ e, env.fails e = false) (hxz : env.archiveFormat = "xz")
    (hp : env.patched_sources = src :: tl) :
    ((run env).trace.any isCreateIssue
      = (!github_issue_exists env.openIssues (newVersionTitle env)
          && ["Release", "Security", "Updates"].any
              (goodPocket env src.source_package_version)))
    ∧ ((run env).trace.any isCreatePull
      = (!github_issue_exists env.openIssues (newVersionTitle env)
          && ["Release", "Security", "Updates"].any
              (goodPocket env src.source_package_version))) := by
  rw [run_noFail_xz env hnf hxz]
  exact any_create_cons_helper env src tl hp

/-- Environment refuting C2 as stated: upstream strictly exceeds the patched
version, but a matching bot-authored issue is already open. -/
def envC2 : Env where
  component_name := "foo"
  upstream_series_name := "noble"
  patched_sources := [⟨"1.0", "foo"⟩]
  upstream_sources := fun p => if p == "Release" then [⟨"2.0", "foo"⟩] else []
  openIssues := [⟨"📦 New version of foo available [noble]", "github-actions[bot]"⟩]
  nextIssueNumber := 3
  web_link := "https://launchpad.net/ubuntu/+archive/primary"
  dscFirstFileName := "foo_2.0.tar.xz"
  archiveFormat := "xz"
  archiveMembers := [⟨"foo-2.0", true⟩, ⟨"foo-2.0/README", false⟩]
  version_compare := fun u p => if u == "2.0" && p == "1.0" then 1 else 0
  fails := fun _ => false

/-- C2 counterexample: the upstream version strictly exceeds the patched
version under the comparator, yet neither an issue nor a change request is
created because a matching open issue already exists — refuting the "if"
direction of the claimed equivalence. -/
theorem C2_counterexample :
    envC2.version_compare "2.0" "1.0" > 0
    ∧ envC2.patched_sources = [⟨"1.0", "foo"⟩]
    ∧ envC2.upstream_sources "Release" = [⟨"2.0", "foo"⟩]
    ∧ (run envC2).trace.any isCreateIssue = false
    ∧ (run envC2).trace.any isCreatePull = false := by
  refine ⟨by decide, by decide, by decide, by decide, by decide⟩

/-- Environment exercising the positive side of the amended C2. -/
def envC2w : Env where
  component_name := "foo"
  upstream_series_name := "noble"
  patched_sources := [⟨"1.0", "foo"⟩]
  upstream_sources := fun p => if p == "Release" then [⟨"2.0", "foo"⟩] else []
  openIssues := []
  nextIssueNumber := 3
  web_link := "https://launchpad.net/ubuntu/+archive/primary"
  dscFirstFileName := "foo_2.0.tar.xz"
  archiveFormat := "xz"
  archiveMembers := [⟨"foo-2.0", true⟩, ⟨"foo-2.0/README", false⟩]
  version_compare := fun u p => if u == "2.0" && p == "1.0" then 1 else 0
  fails := fun _ => false

/-- C2 witness: on a fresh tracker with a strictly newer Release record, the
amended equivalence yields that both an issue and a pull request are
created. -/
theorem C2_create_iff_newer_and_no_issue_witness :
    (run envC2w).trace.any isCreateIssue = true
    ∧ (run envC2w).trace.any isCreatePull = true := by
  have h := C2_create_iff_newer_and_no_issue envC2w ⟨"1.0", "foo"⟩ []
    (fun _ => rfl) rfl rfl
  exact ⟨h.1.trans (by decide), h.2.trans (by decide)⟩

/-- C7 (confirmed): a second run against the tracker state left by a first
run — the first run's issues still open, archive results unchanged — creates
no issue and no change request. -/
theorem C7_second_run_idempotent (env : Env)
    (hnf : ∀ e, env.fails e = false) (hxz : env.archiveFormat = "xz") :
    ((run {env with openIssues :=
        env.openIssues ++ createdIssues (run env).trace}).trace.any isCreateIssue
      = false)
    ∧ ((run {env with openIssues :=
        env.openIssues ++ createdIssues (run env).trace}).trace.any isCreatePull
      = false) := by
  have hrun1 := run_noFail_xz env hnf hxz
  obtain ⟨ps, hps⟩ : ∃ ps, env.patched_sources = ps := ⟨_, rfl⟩
  cases ps with
  | nil =>
    have h1 : createdIssues (run env).trace
        = if github_issue_exists env.openIssues (notFoundTitle env) then []
          else [⟨notFoundTitle env, "github-actions[bot]"⟩] := by
      rw [hrun1]; exact createdIssues_progOf_nil env hps
    rw [h1]
    by_cases hex : github_issue_exists env.openIssues (notFoundTitle env) = true
    · rw [if_pos hex, List.append_nil]
      show ((run env).trace.any isCreateIssue = false)
        ∧ ((run env).trace.any isCreatePull = false)
      rw [hrun1]
      have h2 := any_create_nil_helper env hps
      exact ⟨h2.1.trans (by rw [hex]; rfl), h2.2⟩
    · rw [if_neg hex]
      have hrun2 := run_noFail_xz
        {env with openIssues := env.openIssues ++ [⟨notFoundTitle env, "github-actions[bot]"⟩]}
        hnf hxz
      rw [hrun2]
      have h2 := any_create_nil_helper
        {env with openIssues := env.openIssues ++ [⟨notFoundTitle env, "github-actions[bot]"⟩]}
        hps
      refine ⟨h2.1.trans ?_, h2.2⟩
      show (!github_issue_exists
        (env.openIssues ++ [⟨notFoundTitle env, "github-actions[bot]"⟩])
        (notFoundTitle env)) = false
      rw [github_issue_exists_append, github_issue_exists_singleton]
      simp
  | cons src tl =>
    have h1 : createdIssues (run env).trace
        = if !github_issue_exists env.openIssues (newVersionTitle env)
              && ["Release", "Security", "Updates"].any
                  (goodPocket env src.source_package_version)
          then [⟨newVersionTitle env, "github-actions[bot]"⟩] else [] := by
      rw [hrun1]; exact createdIssues_progOf_cons env src tl hps
    rw [h1]
    by_cases hcond : (!github_issue_exists env.openIssues (newVersionTitle env)
        && ["Release", "Security", "Updates"].any
            (goodPocket env src.source_package_version)) = true
    · rw [if_pos hcond]
      have hrun2 := run_noFail_xz
        {env with openIssues := env.openIssues ++ [⟨newVersionTitle env, "github-actions[bot]"⟩]}
        hnf hxz
      rw [hrun2]
      have h2 := any_create_cons_helper
        {env with openIssues := env.openIssues ++ [⟨newVersionTitle env, "github-actions[bot]"⟩]}
        src tl hps
      have hfalse : (!github_issue_exists
          (env.openIssues ++ [⟨newVersionTitle env, "github-actions[bot]"⟩])
          (newVersionTitle env)
          && ["Release", "Security", "Updates"].any
              (goodPocket env src.source_package_version)) = false := by
        rw [github_issue_exists_append, github_issue_exists_singleton]
        simp
      exact ⟨h2.1.trans hfalse, h2.2.trans hfalse⟩
    · rw [if_neg hcond, List.append_nil]
      show ((run env).trace.any isCreateIssue = false)
        ∧ ((run env).trace.any isCreatePull = false)
      rw [hrun1]
      have h2 := any_create_cons_helper env src tl hps
      have hfalse := Bool.not_eq_true _ ▸ hcond
      exact ⟨h2.1.trans (by simpa using hcond), h2.2.trans (by simpa using hcond)⟩

/-- Environment for the C7 witness: a first run that creates an issue and a
pull request. -/
def envC7w : Env where
  component_name := "foo"
  upstream_series_name := "noble"
  patched_sources := [⟨"1.0", "foo"⟩]
  upstream_sources := fun p => if p == "Release" then [⟨"2.0", "foo"⟩] else []
  openIssues := []
  nextIssueNumber := 3
  web_link := "https://launchpad.net/ubuntu/+archive/primary"
  dscFirstFileName := "foo_2.0.tar.xz"
  archiveFormat := "xz"
  archiveMembers := [⟨"foo-2.0", true⟩, ⟨"foo-2.0/README", false⟩]
  version_compare := fun u p => if u == "2.0" && p == "1.0" then 1 else 0
  fails := fun _ => false

/-- C7 witness: the idempotence theorem applied to a concrete first run that
did create an issue and a pull request. -/
theorem C7_second_run_idempotent_witness :
    ((run {envC7w with openIssues :=
        envC7w.openIssues ++ createdIssues (run envC7w).trace}).trace.any isCreateIssue
      = false)
    ∧ ((run {envC7w with openIssues :=
        envC7w.openIssues ++ createdIssues (run envC7w).trace}).trace.any isCreatePull
      = false) :=
  C7_second_run_idempotent envC7w (fun _ => rfl) rfl

/-! ### Claim C5: the archive extractor -/

/-- Every `extracted` event is immediately followed by the removal of the
same file (`os.remove(file_path)` at the end of `extract_archive`). -/
def extractThenRemove : List Event → Bool
  | [] => true
  | .extracted f _ _ :: rest =>
    (match rest with
     | .removeFile g :: _ => f == g
     | _ => false) && extractThenRemove rest
  | _ :: rest => extractThenRemove rest

theorem extractThenRemove_pocketIter (env : Env) (pv : String) :
    ∀ (ps : List String) (issues : List Issue) (n : Nat),
      extractThenRemove (progEvents (pocketIter env pv ps issues n)) = true := by
  intro ps
  induction ps with
  | nil => intro issues n; rfl
  | cons pocket pockets ih =>
    intro issues n
    simp only [pocketIter]
    cases h : env.upstream_sources pocket with
    | nil => simp [progEvents, extractThenRemove, ih]
    | cons src tl =>
      simp only []
      split
      · split
        · simp [progEvents, extractThenRemove, ih]
        · simp [progEvents, progEvents_updateProg, preSeq, updateSeq,
            List.cons_append, List.nil_append, extractThenRemove, ih]
      · simp [progEvents, extractThenRemove, ih]

theorem extractThenRemove_run (env : Env)
    (hnf : ∀ e, env.fails e = false) (hxz : env.archiveFormat = "xz") :
    extractThenRemove (run env).trace = true := by
  rw [run_noFail_xz env hnf hxz]
  show extractThenRemove (progEvents (progOf env)) = true
  cases hps : env.patched_sources with
  | nil =>
    rw [progEvents_progOf_nil env hps]
    by_cases hex : github_issue_exists env.openIssues (notFoundTitle env) = true <;>
      simp [hex, cfgPrefixEvents, extractThenRemove]
  | cons src tl =>
    rw [progEvents_progOf_cons env src tl hps]
    simp only [cfgPrefixEvents, List.cons_append, List.nil_append, extractThenRemove]
    exact extractThenRemove_pocketIter env src.source_package_version
      ["Release", "Security", "Updates"] env.openIssues env.nextIssueNumber

/-- The members of the counterexample archive: one top-level directory
`foo`, a file below it, and a stray top-level file `bar`. -/
def cexMembers : List TarMember :=
  [⟨"foo", true⟩, ⟨"foo/a", false⟩, ⟨"bar", false⟩]

/-- C5 counterexample: `cexMembers` has two top-level entries (`foo` and
`bar`), so the claim demands verbatim extraction of all members; but the
code counts only top-level *directories* (exactly one, `foo`), takes the
flattening branch, and silently drops `bar` — the extracted members are not
the original ones. -/
theorem C5_counterexample :
    ((cexMembers.filter (fun m => !(pyContains (pyStripSlashes m.name) '/'))).length ≥ 2)
    ∧ extract_archive cexMembers ≠ cexMembers := by
  refine ⟨by decide, by decide⟩

/-- C5, amended (corrected): (1) when exactly one top-level *directory*
member exists, exactly the members whose names start with that directory's
name are extracted, with the name prefix stripped and surrounding slashes
removed — members outside the prefix are dropped, not extracted; (2) when
the number of top-level directory members differs from one, all members are
extracted verbatim; (3) in every failure-free run with an xz archive, each
extraction is immediately followed by the removal of the archive file. -/
theorem C5_extract_flatten_or_verbatim :
    (∀ (ms : List TarMember) (d : TarMember), top_level_dirs ms = [d] →
      extract_archive ms
        = ms.filterMap (fun m =>
            if pyStartsWith m.name d.name then
              some { m with name := pyStripSlashes (pyDropChars m.name (pyLen d.name)) }
            else none))
    ∧ (∀ ms : List TarMember, (top_level_dirs ms).length ≠ 1 →
        extract_archive ms = ms)
    ∧ (∀ env : Env, (∀ e, env.fails e = false) → env.archiveFormat = "xz" →
        extractThenRemove (run env).trace = true) := by
  refine ⟨?_, ?_, extractThenRemove_run⟩
  · intro ms d h
    simp [extract_archive, h]
  · intro ms h
    unfold extract_archive
    cases htl : top_level_dirs ms with
    | nil => rfl
    | cons d tl =>
      cases tl with
      | nil => exact absurd (by rw [htl]; rfl) h
      | cons d2 tl2 => rfl

/-- Environment for the run part of the C5 witness. -/
def envC5w : Env where
  component_name := "foo"
  upstream_series_name := "noble"
  patched_sources := [⟨"1.0", "foo"⟩]
  upstream_sources := fun p => if p == "Release" then [⟨"2.0", "foo"⟩] else []
  openIssues := []
  nextIssueNumber := 3
  web_link := "https://launchpad.net/ubuntu/+archive/primary"
  dscFirstFileName := "foo_2.0.tar.xz"
  archiveFormat := "xz"
  archiveMembers := [⟨"foo-2.0", true⟩, ⟨"foo-2.0/README", false⟩]
  version_compare := fun u p => if u == "2.0" && p == "1.0" then 1 else 0
  fails := fun _ => false

/-- C5 witness: the flattening branch on the spec's own example
(`foo/a`, `foo/bar/b` extract to `a`, `bar/b`), the verbatim branch on an
archive with two top-level directories, and the extract-then-remove
discipline on a concrete run. -/
theorem C5_extract_flatten_or_verbatim_witness :
    extract_archive [⟨"foo", true⟩, ⟨"foo/a", false⟩, ⟨"foo/bar/b", false⟩]
      = [⟨"", true⟩, ⟨"a", false⟩, ⟨"bar/b", false⟩]
    ∧ extract_archive [⟨"foo", true⟩, ⟨"bar", true⟩, ⟨"foo/a", false⟩]
      = [⟨"foo", true⟩, ⟨"bar", true⟩, ⟨"foo/a", false⟩]
    ∧ extractThenRemove (run envC5w).trace = true := by
  refine ⟨?_, ?_, ?_⟩
  · exact (C5_extract_flatten_or_verbatim.1
      [⟨"foo", true⟩, ⟨"foo/a", false⟩, ⟨"foo/bar/b", false⟩]
      ⟨"foo", true⟩ (by decide)).trans (by decide)
  · exact C5_extract_flatten_or_verbatim.2.1
      [⟨"foo", true⟩, ⟨"bar", true⟩, ⟨"foo/a", false⟩] (by decide)
  · exact C5_extract_flatten_or_verbatim.2.2 envC5w (fun _ => rfl) rfl

/-! ### Claim C6: the branch/commit/push/PR sequence -/

/-- Whenever the loop opens a pull request, the trace carries the whole
version-control block `updateSeq` contiguously, preceded by the creation of
the issue the pull-request body references (same issue number). -/
theorem createPull_updateSeq_pocketIter (env : Env) (pv : String) :
    ∀ (ps : List String) (issues : List Issue) (n : Nat),
      ((progEvents (pocketIter env pv ps issues n)).any isCreatePull = false)
      ∨ (∃ pocket_version l r,
          progEvents (pocketIter env pv ps issues n)
            = l ++ updateSeq env pocket_version pv n ++ r
          ∧ Event.createIssue (newVersionTitle env)
              (newVersionBody env pocket_version pv) n ∈ l) := by
  intro ps
  induction ps with
  | nil => intro issues n; left; simp [pocketIter, progEvents]
  | cons pocket pockets ih =>
    intro issues n
    simp only [pocketIter]
    cases hsrc : env.upstream_sources pocket with
    | nil =>
      rcases ih issues n with hl | ⟨pvv, l, r, heq, hmem⟩
      · left; simp [progEvents, isCreatePull, hl]
      · right
        exact ⟨pvv, .queryUpstream pocket :: l, r, by simp [progEvents, heq],
          by simp [hmem]⟩
    | cons src tl =>
      simp only []
      split
      · split
        · rcases ih issues n with hl | ⟨pvv, l, r, heq, hmem⟩
          · left; simp [progEvents, isCreatePull, hl]
          · right
            exact ⟨pvv, .queryUpstream pocket :: .listOpenIssues :: l, r,
              by simp [progEvents, heq], by simp [hmem]⟩
        · right
          refine ⟨src.source_package_version,
            .queryUpstream pocket :: .listOpenIssues ::
              preSeq env src src.source_package_version pv n,
            progEvents (pocketIter env pv pockets
              (issues ++ [⟨newVersionTitle env, "github-actions[bot]"⟩]) (n + 1)),
            ?_, ?_⟩
          · simp [progEvents, progEvents_updateProg, preSeq, updateSeq,
              List.append_assoc]
          · simp [preSeq]
      · rcases ih issues n with hl | ⟨pvv, l, r, heq, hmem⟩
        · left; simp [progEvents, isCreatePull, hl]
        · right
          exact ⟨pvv, .queryUpstream pocket :: l, r, by simp [progEvents, heq],
            by simp [hmem]⟩

/-- C6 (confirmed): whenever an update is performed (a pull request is
opened) in a failure-free run, the trace contains, contiguously and in this
exact order: `git fetch --all`; `git switch <package>-<series>`;
`git checkout -b bot/update/<package>-<series>`; opening the archive in mode
`r:xz`, extracting it and removing the file; `git add .`;
`git commit -m "Update to <package> <version>"`;
`git push origin bot/update/<package>-<series>`; a pull request from the new
branch onto the base branch whose body references the issue created earlier
(same number); `git switch master` — with the referenced issue created
earlier in the trace. -/
theorem C6_update_sequence (env : Env) (src : SourceRecord)
    (tl : List SourceRecord)
    (hnf : ∀ e, env.fails e = false) (hxz : env.archiveFormat = "xz")
    (hp : env.patched_sources = src :: tl)
    (hpr : (run env).trace.any isCreatePull = true) :
    ∃ pocket_version l r,
      (run env).trace
        = l ++ updateSeq env pocket_version src.source_package_version
            env.nextIssueNumber ++ r
      ∧ Event.createIssue (newVersionTitle env)
          (newVersionBody env pocket_version src.source_package_version)
          env.nextIssueNumber ∈ l := by
  have htr : (run env).trace = progEvents (progOf env) := by
    rw [run_noFail_xz env hnf hxz]
  rw [htr] at hpr ⊢
  rw [progEvents_progOf_cons env src tl hp] at hpr ⊢
  have hloop : (progEvents (pocketIter env src.source_package_version
      ["Release", "Security", "Updates"] env.openIssues
      env.nextIssueNumber)).any isCreatePull = true := by
    simpa [cfgPrefixEvents, isCreatePull, List.any_append] using hpr
  obtain ⟨pvv, l, r, heq, hmem⟩ :=
    (createPull_updateSeq_pocketIter env src.source_package_version
      ["Release", "Security", "Updates"] env.openIssues
      env.nextIssueNumber).resolve_left (by simp [hloop])
  refine ⟨pvv, (cfgPrefixEvents ++ [.queryPatched, .queryPatched]) ++ l, r, ?_, ?_⟩
  · rw [heq]; simp [List.append_assoc]
  · simp [hmem]

/-- Environment for the C6 witness run. -/
def envC6w : Env where
  component_name := "foo"
  upstream_series_name := "noble"
  patched_sources := [⟨"1.0", "foo"⟩]
  upstream_sources := fun p => if p == "Release" then [⟨"2.0", "foo"⟩] else []
  openIssues := []
  nextIssueNumber := 3
  web_link := "https://launchpad.net/ubuntu/+archive/primary"
  dscFirstFileName := "foo_2.0.tar.xz"
  archiveFormat := "xz"
  archiveMembers := [⟨"foo-2.0", true⟩, ⟨"foo-2.0/README", false⟩]
  version_compare := fun u p => if u == "2.0" && p == "1.0" then 1 else 0
  fails := fun _ => false

/-- C6 witness: a concrete run that opens a pull request does contain the
full contiguous update sequence after the issue creation. -/
theorem C6_update_sequence_witness :
    ∃ pocket_version l r,
      (run envC6w).trace
        = l ++ updateSeq envC6w pocket_version "1.0" 3 ++ r
      ∧ Event.createIssue (newVersionTitle envC6w)
          (newVersionBody envC6w pocket_version "1.0") 3 ∈ l :=
  C6_update_sequence envC6w ⟨"1.0", "foo"⟩ [] (fun _ => rfl) rfl rfl (by decide)

/-- Environment for the C4 witness (package absent from the PPA). -/
def envC4w : Env where
  component_name := "foo"
  upstream_series_name := "noble"
  patched_sources := []
  upstream_sources := fun _ => []
  openIssues := []
  nextIssueNumber := 1
  web_link := "https://launchpad.net/ubuntu/+archive/primary"
  dscFirstFileName := "foo.tar.xz"
  archiveFormat := "xz"
  archiveMembers := []
  version_compare := fun _ _ => 0
  fails := fun _ => false

/-- C4 witness: the not-found theorem evaluated on a concrete environment
with no patched sources and a fresh tracker. -/
theorem C4_not_found_terminal_witness :
    (run envC4w).exitOk = true
    ∧ (run envC4w).trace
        = cfgPrefixEvents ++ [.queryPatched, .listOpenIssues]
          ++ (if github_issue_exists envC4w.openIssues (notFoundTitle envC4w) then []
              else [.createIssue (notFoundTitle envC4w) (notFoundBody envC4w)
                      envC4w.nextIssueNumber,
                    .printLine (notFoundPrintLine envC4w envC4w.nextIssueNumber)])
    ∧ (run envC4w).trace.any isQueryUpstream = false
    ∧ (run envC4w).trace.any isCreatePull = false
    ∧ (run envC4w).trace.any isDownloadFile = false
    ∧ (run envC4w).trace.any isGitCmd = false
    ∧ (run envC4w).trace.any isHttpGet = false
    ∧ (run envC4w).trace.any isCreateIssue
        = !github_issue_exists envC4w.openIssues (notFoundTitle envC4w) :=
  C4_not_found_terminal envC4w (fun _ => rfl) rfl

/-- Environment for the C8 witness (all pockets empty). -/
def envC8w : Env where
  component_name := "foo"
  upstream_series_name := "noble"
  patched_sources := [⟨"1.0", "foo"⟩]
  upstream_sources := fun _ => []
  openIssues := []
  nextIssueNumber := 1
  web_link := "https://launchpad.net/ubuntu/+archive/primary"
  dscFirstFileName := "foo.tar.xz"
  archiveFormat := "xz"
  archiveMembers := []
  version_compare := fun _ _ => 0
  fails := fun _ => false

/-- C8 witness: the empty-pockets theorem evaluated on a concrete
environment. -/
theorem C8_all_pockets_empty_witness :
    (run envC8w).exitOk = true
    ∧ (run envC8w).trace
        = cfgPrefixEvents ++ [.queryPatched, .queryPatched,
            .queryUpstream "Release", .queryUpstream "Security",
            .queryUpstream "Updates"] :=
  C8_all_pockets_empty envC8w (fun _ => rfl) (fun _ => rfl) (by decide)

/-! ### Claim C9: which failures abort the run -/

/-- C9 (confirmed): (a) if every non-`git config` call succeeds the run
exits 0 — failures of the three `check=False` setup commands never abort it
(they are not even consulted); (b) a nonzero exit always ends the trace at a
failing call that is not a `git config` command; (c) a run that exits 0 made
no failing checked call; (d) every run begins with the three setup commands,
unconditionally. -/
theorem C9_failure_semantics (env : Env) :
    ((∀ e, isGitConfig e = false → effFails env e = false) →
      (run env).exitOk = true)
    ∧ ((run env).exitOk = false →
        ∃ l e, (run env).trace = l ++ [e] ∧ isGitConfig e = false
          ∧ effFails env e = true)
    ∧ ((run env).exitOk = true →
        ∀ e ∈ (run env).trace, isGitConfig e = true ∨ effFails env e = false)
    ∧ (∃ rest, (run env).trace = cfgPrefixEvents ++ rest) := by
  refine ⟨?_, ?_, ?_, ?_⟩
  · intro h
    have hck : ∀ e ∈ checkedEvents (progOf env), effFails env e = false :=
      fun e he => h e (wellTagged_checked _ (wellTagged_progOf env) e he)
    show (exec (effFails env) (progOf env)).exitOk = true
    rw [exec_noFail _ _ hck]
  · intro h
    obtain ⟨l, e, hl, hf, hm⟩ := exec_fail_last (effFails env) (progOf env) h
    exact ⟨l, e, hl, wellTagged_checked _ (wellTagged_progOf env) e hm, hf⟩
  · intro h e he
    rcases exec_ok_all (effFails env) (progOf env) h e he with h' | h'
    · exact Or.inr h'
    · exact Or.inl (wellTagged_unchecked _ (wellTagged_progOf env) e h')
  · show ∃ rest, (exec (effFails env) (progOf env)).trace = cfgPrefixEvents ++ rest
    simp only [progOf, exec, cfgPrefixEvents]
    exact ⟨_, rfl⟩

/-- Environment for the C9 witness: no failures. -/
def envC9w : Env where
  component_name := "foo"
  upstream_series_name := "noble"
  patched_sources := [⟨"1.0", "foo"⟩]
  upstream_sources := fun p => if p == "Release" then [⟨"2.0", "foo"⟩] else []
  openIssues := []
  nextIssueNumber := 3
  web_link := "https://launchpad.net/ubuntu/+archive/primary"
  dscFirstFileName := "foo_2.0.tar.xz"
  archiveFormat := "xz"
  archiveMembers := [⟨"foo-2.0", true⟩, ⟨"foo-2.0/README", false⟩]
  version_compare := fun u p => if u == "2.0" && p == "1.0" then 1 else 0
  fails := fun _ => false

/-- Environment for the C9 witness: every `git` version-control command
(`check=True`) fails. -/
def envC9f : Env where
  component_name := "foo"
  upstream_series_name := "noble"
  patched_sources := [⟨"1.0", "foo"⟩]
  upstream_sources := fun p => if p == "Release" then [⟨"2.0", "foo"⟩] else []
  openIssues := []
  nextIssueNumber := 3
  web_link := "https://launchpad.net/ubuntu/+archive/primary"
  dscFirstFileName := "foo_2.0.tar.xz"
  archiveFormat := "xz"
  archiveMembers := [⟨"foo-2.0", true⟩, ⟨"foo-2.0/README", false⟩]
  version_compare := fun u p => if u == "2.0" && p == "1.0" then 1 else 0
  fails := isGitCmd

/-- C9 witness: a run with no collaborator failures exits 0, and a run whose
`git fetch` fails aborts at a non-config command. -/
theorem C9_failure_semantics_witness :
    (run envC9w).exitOk = true
    ∧ (∃ l e, (run envC9f).trace = l ++ [e] ∧ isGitConfig e = false
        ∧ effFails envC9f e = true) :=
  ⟨(C9_failure_semantics envC9w).1 (fun e _ => by cases e <;> rfl),
   (C9_failure_semantics envC9f).2.1 (by decide)⟩

/-! ### Claim C10: only xz-compressed tarballs are accepted -/

/-- Events that may only happen after a successful archive opening:
extraction, removal of the archive, staging (`git add`), committing,
pushing, and the pull request. -/
def isPostExtract : Event → Bool
  | .extracted _ _ _ => true
  | .removeFile _ => true
  | .createPull _ _ _ _ => true
  | .gitCmd args =>
    args.get? 1 == some "add" || args.get? 1 == some "commit"
      || args.get? 1 == some "push"
  | _ => false

/-- Every archive is opened in mode `r:xz`. -/
def openModeXz : Event → Bool
  | .openArchive _ m => m == "r:xz"
  | _ => true

/-- Invariant of an execution in which exactly the `openArchive` call fails:
no post-extraction event, a nonzero exit ends the trace at the `openArchive`
call, a zero exit means extraction was never attempted, any download forces
the nonzero exit, and every archive opening uses mode `r:xz`. -/
def abortInv (env : Env) (out : RunOut) : Prop :=
  out.trace.any isPostExtract = false
  ∧ (out.exitOk = false →
      ∃ l, out.trace = l ++ [.openArchive env.dscFirstFileName "r:xz"])
  ∧ (out.exitOk = true → out.trace.any isOpenArchive = false)
  ∧ (out.trace.any isDownloadFile = true → out.exitOk = false)
  ∧ out.trace.all openModeXz = true

theorem abortInv_done (env : Env) : abortInv env (exec isOpenArchive .done) := by
  refine ⟨by simp [exec], by simp [exec], by simp [exec], by simp [exec],
    by simp [exec]⟩

theorem abortInv_cons (env : Env) (e : Event) (p : Prog)
    (he1 : isOpenArchive e = false) (he2 : isPostExtract e = false)
    (he3 : isDownloadFile e = false) (he5 : openModeXz e = true)
    (h : abortInv env (exec isOpenArchive p)) :
    abortInv env (exec isOpenArchive (.callChecked e p)) := by
  obtain ⟨h1, h2, h3, h4, h5⟩ := h
  simp only [exec, he1, Bool.false_eq_true, if_false]
  refine ⟨?_, ?_, ?_, ?_, ?_⟩
  · simp [he2, h1]
  · intro hx
    obtain ⟨l, hl⟩ := h2 hx
    exact ⟨e :: l, by simp [hl]⟩
  · intro hx
    simp [he1, h3 hx]
  · intro hx
    simp only [List.any_cons, he3, Bool.false_or] at hx
    exact h4 hx
  · simp [he5, h5]

theorem abortInv_consU (env : Env) (e : Event) (p : Prog)
    (he1 : isOpenArchive e = false) (he2 : isPostExtract e = false)
    (he3 : isDownloadFile e = false) (he5 : openModeXz e = true)
    (h : abortInv env (exec isOpenArchive p)) :
    abortInv env (exec isOpenArchive (.callUnchecked e p)) := by
  obtain ⟨h1, h2, h3, h4, h5⟩ := h
  simp only [exec]
  refine ⟨?_, ?_, ?_, ?_, ?_⟩
  · simp [he2, h1]
  · intro hx
    obtain ⟨l, hl⟩ := h2 hx
    exact ⟨e :: l, by simp [hl]⟩
  · intro hx
    simp [he1, h3 hx]
  · intro hx
    simp only [List.any_cons, he3, Bool.false_or] at hx
    exact h4 hx
  · simp [he5, h5]

/-- A non-xz archive aborts the update block at the `tarfile.open` call:
the trace ends right there, after the download and the three branch
commands, before extraction, removal, staging, commit, push or PR. -/
theorem exec_updateProg_abort (env : Env) (src : SourceRecord)
    (pocket_version patched_version : String) (n : Nat) (rest : Prog) :
    exec isOpenArchive (updateProg env src pocket_version patched_version n rest)
      = ⟨preSeq env src pocket_version patched_version n ++
          [.gitCmd ["git", "fetch", "--all"],
           .gitCmd ["git", "switch", baseBranch env],
           .gitCmd ["git", "checkout", "-b", newBranch env],
           .openArchive env.dscFirstFileName "r:xz"], false⟩ := by
  simp [updateProg, preSeq, exec, isOpenArchive]

theorem abortInv_updateProg (env : Env) (src : SourceRecord)
    (pocket_version patched_version : String) (n : Nat) (rest : Prog) :
    abortInv env (exec isOpenArchive
      (updateProg env src pocket_version patched_version n rest)) := by
  rw [exec_updateProg_abort]
  refine ⟨?_, ?_, ?_, ?_, ?_⟩
  · simp [preSeq, isPostExtract]
  · intro _
    exact ⟨preSeq env src pocket_version patched_version n ++
      [.gitCmd ["git", "fetch", "--all"],
       .gitCmd ["git", "switch", baseBranch env],
       .gitCmd ["git", "checkout", "-b", newBranch env]], by simp⟩
  · intro hx
    simp at hx
  · intro _
    rfl
  · simp [preSeq, openModeXz]

theorem abortInv_pocketIter (env : Env) (pv : String) :
    ∀ (ps : List String) (issues : List Issue) (n : Nat),
      abortInv env (exec isOpenArchive (pocketIter env pv ps issues n)) := by
  intro ps
  induction ps with
  | nil =>
    intro issues n
    exact abortInv_done env
  | cons pocket pockets ih =>
    intro issues n
    simp only [pocketIter]
    cases hsrc : env.upstream_sources pocket with
    | nil => exact abortInv_cons env _ _ rfl rfl rfl rfl (ih issues n)
    | cons src tl =>
      simp only []
      split
      · split
        · exact abortInv_cons env _ _ rfl rfl rfl rfl
            (abortInv_cons env _ _ rfl rfl rfl rfl (ih issues n))
        · exact abortInv_cons env _ _ rfl rfl rfl rfl
            (abortInv_cons env _ _ rfl rfl rfl rfl
              (abortInv_updateProg env src _ pv n _))
      · exact abortInv_cons env _ _ rfl rfl rfl rfl (ih issues n)

theorem abortInv_notFoundProg (env : Env) :
    abortInv env (exec isOpenArchive (notFoundProg env)) := by
  simp only [notFoundProg]
  split
  · exact abortInv_cons env _ _ rfl rfl rfl rfl (abortInv_done env)
  · exact abortInv_cons env _ _ rfl rfl rfl rfl
      (abortInv_cons env _ _ rfl rfl rfl rfl
        (abortInv_cons env _ _ rfl rfl rfl rfl (abortInv_done env)))

theorem abortInv_progOf (env : Env) :
    abortInv env (exec isOpenArchive (progOf env)) := by
  simp only [progOf]
  refine abortInv_consU env _ _ rfl rfl rfl rfl
    (abortInv_consU env _ _ rfl rfl rfl rfl
      (abortInv_consU env _ _ rfl rfl rfl rfl
        (abortInv_cons env _ _ rfl rfl rfl rfl ?_)))
  cases hps : env.patched_sources with
  | nil => exact abortInv_notFoundProg env
  | cons src tl =>
    exact abortInv_cons env _ _ rfl rfl rfl rfl
      (abortInv_pocketIter env src.source_package_version
        ["Release", "Security", "Updates"] env.openIssues env.nextIssueNumber)

/-- C10 (confirmed): the extractor only accepts xz-compressed tarballs —
`tarfile.open(file_path, 'r:xz')`.  When the downloaded file is not an
xz-compressed tarball and no other call fails, any run that downloaded a
file exits nonzero, the trace ends at the `openArchive` attempt (made in
mode `r:xz`), and no removal of the archive file, no extraction, no staging,
no commit, no push and no pull request ever happens. -/
theorem C10_non_xz_aborts (env : Env) (hnf : ∀ e, env.fails e = false)
    (hformat : env.archiveFormat ≠ "xz") :
    ((run env).trace.any isDownloadFile = true → (run env).exitOk = false)
    ∧ ((run env).exitOk = false →
        ∃ l, (run env).trace = l ++ [.openArchive env.dscFirstFileName "r:xz"])
    ∧ (run env).trace.any isPostExtract = false
    ∧ (∀ f m, Event.openArchive f m ∈ (run env).trace → m = "r:xz") := by
  have hfun : effFails env = isOpenArchive := by
    funext e
    cases e <;> simp [effFails, isOpenArchive, hnf, bne_iff_ne, hformat]
  have hrun : run env = exec isOpenArchive (progOf env) := by
    show exec (effFails env) (progOf env) = _
    rw [hfun]
  obtain ⟨h1, h2, h3, h4, h5⟩ := abortInv_progOf env
  rw [hrun]
  refine ⟨h4, h2, h1, ?_⟩
  intro f m hm
  have := List.all_eq_true.mp h5 _ hm
  simpa [openModeXz] using this

/-- Environment for the C10 witness: a gzip archive reaches the update
path. -/
def envC10w : Env where
  component_name := "foo"
  upstream_series_name := "noble"
  patched_sources := [⟨"1.0", "foo"⟩]
  upstream_sources := fun p => if p == "Release" then [⟨"2.0", "foo"⟩] else []
  openIssues := []
  nextIssueNumber := 3
  web_link := "https://launchpad.net/ubuntu/+archive/primary"
  dscFirstFileName := "foo_2.0.tar.gz"
  archiveFormat := "gz"
  archiveMembers := [⟨"foo-2.0", true⟩, ⟨"foo-2.0/README", false⟩]
  version_compare := fun u p => if u == "2.0" && p == "1.0" then 1 else 0
  fails := fun _ => false

/-- C10 witness: a concrete run that downloads a gzip tarball aborts at the
`r:xz` open, with no post-extraction event in its trace. -/
theorem C10_non_xz_aborts_witness :
    (run envC10w).trace.any isDownloadFile = true
    ∧ (run envC10w).exitOk = false
    ∧ (∃ l, (run envC10w).trace
        = l ++ [.openArchive envC10w.dscFirstFileName "r:xz"])
    ∧ (run envC10w).trace.any isPostExtract = false :=
  ⟨by decide,
   (C10_non_xz_aborts envC10w (fun _ => rfl) (by decide)).1 (by decide),
   (C10_non_xz_aborts envC10w (fun _ => rfl) (by decide)).2.1
     ((C10_non_xz_aborts envC10w (fun _ => rfl) (by decide)).1 (by decide)),
   (C10_non_xz_aborts envC10w (fun _ => rfl) (by decide)).2.2.1⟩

end OsPatches
